import Mathlib

/-!
# Verification of the resume-parser PDF pipeline

Shallow embedding of `app/services/pdf.py` and the `/resume/parse` route of
`app/api/routes/resume.py`.  Strings are modelled as `String`/`List Char`,
the Python regular expressions used by the service are embedded as an
explicit leftmost, ordered-alternation, greedy-with-backtracking matcher
specialised to the two URL patterns of the source, and the effectful parts
(file system, PDF libraries, network) are modelled by explicit environments
that say which library call raises.
-/

namespace ResumeParser

/-! ## Python string primitives -/

/-- Python `\s` for `str` patterns: ASCII whitespace plus the Unicode
whitespace code points recognised by CPython's `re` module. -/
def pythonWhitespace (c : Char) : Bool :=
  c = ' ' || c = '\t' || c = '\n' || c = '\r' || c = '\x0b' || c = '\x0c' ||
  c.val = 0x1c || c.val = 0x1d || c.val = 0x1e || c.val = 0x1f ||
  c.val = 0x85 || c.val = 0xa0 || c.val = 0x1680 ||
  (0x2000 ≤ c.val && c.val ≤ 0x200a) ||
  c.val = 0x2028 || c.val = 0x2029 || c.val = 0x202f || c.val = 0x205f ||
  c.val = 0x3000

/-- Python `str.lower` restricted to ASCII case mapping (the identity on all
other characters); every string the service compares case-insensitively is
ASCII. -/
def lowerL (l : List Char) : List Char := l.map Char.toLower

/-- Python substring containment `needle in hay`. -/
def occursIn (needle : List Char) : List Char → Bool
  | [] => needle.isEmpty
  | c :: rest => needle.isPrefixOf (c :: rest) || occursIn needle rest

/-- Python `str.rstrip('/')`. -/
def rstripSlash (l : List Char) : List Char :=
  (l.reverse.dropWhile (fun c => c = '/')).reverse

/-- Python `str.replace("  ", " ")`: one left-to-right pass, non-overlapping,
the scan continues after each replaced occurrence. -/
def collapseDoubleSpace : List Char → List Char
  | ' ' :: ' ' :: rest => ' ' :: collapseDoubleSpace rest
  | c :: rest => c :: collapseDoubleSpace rest
  | [] => []

/-! ## The text cleaner (`extract_text_from_pdf`, lines 164-167)

The source substitutes a space for every character matching
`[^a-zA-Z0-9\s@+./:,-_|]`.  Inside that class `,-_` is a character RANGE
(code points 0x2C to 0x5F), not the three literal characters: the class
therefore also keeps `;`, `<`, `=`, `>`, `?`, `[`, `\`, `]` and `^`. -/

/-- The set of characters the source regex class keeps (verbatim embedding of
`[a-zA-Z0-9\s@+./:,-_|]`, with `,-_` as the range 0x2C-0x5F). -/
def keepChar (c : Char) : Bool :=
  ('a' ≤ c && c ≤ 'z') || ('A' ≤ c && c ≤ 'Z') || ('0' ≤ c && c ≤ '9') ||
  pythonWhitespace c || c = '@' || c = '+' || c = '.' || c = '/' || c = ':' ||
  (',' ≤ c && c ≤ '_') || c = '|'

/-- `re.sub(r"[^a-zA-Z0-9\s@+./:,-_|]", " ", t).replace("\n", " ").replace("  ", " ")`. -/
def cleanText (s : String) : String :=
  String.mk (collapseDoubleSpace
    ((s.data.map (fun c => if keepChar c then c else ' ')).map
      (fun c => if c = '\n' then ' ' else c)))

/-! ## The URL pattern matcher

Both URL regexes of the source have the shape
`(?:https?://)?(?:www\.)?[a-zA-Z0-9.-]+\.(?:TLD1|...|TLDn)(?:/[path chars]*)?`
and differ only in the TLD alternation.  The matcher below reproduces
`re.findall`'s semantics for this shape: scan start positions left to right;
at each position try the optional groups greedily (present before absent),
backtrack the greedy `+` from the longest run of domain characters downward,
try the TLD alternatives in their written order, and let the optional path
consume greedily (nothing follows it, so no further backtracking occurs);
after a match, resume scanning just past it. -/

/-- Characters of the class `[a-zA-Z0-9.-]`. -/
def isDomChar (c : Char) : Bool :=
  ('a' ≤ c && c ≤ 'z') || ('A' ≤ c && c ≤ 'Z') || ('0' ≤ c && c ≤ '9') ||
  c = '.' || c = '-'

/-- Characters of the path class: alphanumeric, dot, slash, hyphen. -/
def isPathChar (c : Char) : Bool :=
  ('a' ≤ c && c ≤ 'z') || ('A' ≤ c && c ≤ 'Z') || ('0' ≤ c && c ≤ '9') ||
  c = '.' || c = '/' || c = '-'

/-- Length of the longest run of characters satisfying `p` at the front. -/
def takeCount (p : Char → Bool) : List Char → Nat
  | [] => 0
  | c :: r => if p c then takeCount p r + 1 else 0

/-- Match `\.(?:TLDs)(?:/[path chars]*)?` at the front of `l`; returns the
number of characters consumed.  The first TLD alternative (in written order)
that is a prefix is taken — the optional path never fails, so the
backtracking engine commits to it. -/
def tailMatch (tl : List (List Char)) : List Char → Option Nat
  | '.' :: rest =>
    match tl.find? (fun t => t.isPrefixOf rest) with
    | some t =>
      match rest.drop t.length with
      | '/' :: r2 => some (1 + t.length + (1 + takeCount isPathChar r2))
      | _ => some (1 + t.length)
    | none => none
  | _ => none

/-- Backtracking of the greedy `[a-zA-Z0-9.-]+`: try consuming `k` domain
characters for `k = hi, hi-1, ..., 1` and give the first `k` whose
continuation matches. -/
def domainTry (tl : List (List Char)) (l : List Char) : Nat → Option Nat
  | 0 => none
  | k + 1 =>
    match tailMatch tl (l.drop (k + 1)) with
    | some t => some (k + 1 + t)
    | none => domainTry tl l k

/-- Match `[a-zA-Z0-9.-]+\.(?:TLDs)(?:path)?` at the front of `l`. -/
def domainMatch (tl : List (List Char)) (l : List Char) : Option Nat :=
  domainTry tl l (takeCount isDomChar l)

/-- Match `(?:www\.)?` (greedy) followed by the domain part. -/
def wwwDomainMatch (tl : List (List Char)) (l : List Char) : Option Nat :=
  match (if ("www.".data).isPrefixOf l then
           (domainMatch tl (l.drop 4)).map (· + 4)
         else none) with
  | some n => some n
  | none => domainMatch tl l

/-- Length matched by `(?:https?://)` at the front of `l` (0 if absent).
`https` and `http://` cannot both be prefixes, so no backtracking between
the two branches of `s?` is possible. -/
def schemeLen (l : List Char) : Nat :=
  if ("https://".data).isPrefixOf l then 8
  else if ("http://".data).isPrefixOf l then 7
  else 0

/-- Match the whole pattern at the front of `l`: the optional scheme is tried
present first (greedy), falling back to absent at the same position. -/
def matchAt (tl : List (List Char)) (l : List Char) : Option Nat :=
  match (if 0 < schemeLen l then
           (wwwDomainMatch tl (l.drop (schemeLen l))).map (· + schemeLen l)
         else none) with
  | some n => some n
  | none => wwwDomainMatch tl l

/-- Scanning loop of `re.findall`, driven by a fuel argument that bounds the
number of scan steps (every step drops at least one character, so
`l.length` fuel suffices). -/
def findAllAux (tl : List (List Char)) : Nat → List Char → List (List Char)
  | 0, _ => []
  | _, [] => []
  | fuel + 1, c :: rest =>
    match matchAt tl (c :: rest) with
    | some (n + 1) => ((c :: rest).take (n + 1)) :: findAllAux tl fuel (rest.drop n)
    | _ => findAllAux tl fuel rest

/-- `re.findall` for the URL pattern: all non-overlapping matches, scanning
left to right and resuming right after each match. -/
def findAllMatches (tl : List (List Char)) (l : List Char) : List (List Char) :=
  findAllAux tl l.length l

/-- TLD alternation of `_get_valid_url` (line 36), in source order. -/
def tlds_full : List (List Char) :=
  ["com", "ai", "org", "net", "edu", "gov", "mil", "in", "info", "co.uk"].map
    String.data

/-- TLD alternation of `_extract_plain_text_links` (line 210): the same list
without `ai`. -/
def tlds_plain : List (List Char) :=
  ["com", "org", "net", "edu", "gov", "mil", "in", "info", "co.uk"].map
    String.data

/-! ## `_get_valid_url` (lines 27-50) -/

/-- The rejected substrings of `_get_valid_url` (line 33). -/
def blocked_substrings : List String :=
  ["mailto:", "tel:", "wikipedia.org", "gmail.com"]

/-- `PDFService._get_valid_url`. -/
def get_valid_url (s : String) : String :=
  if blocked_substrings.any (fun b => occursIn b.data (lowerL s.data)) then ""
  else
    match findAllMatches tlds_full s.data with
    | [] => ""
    | m :: _ =>
      if ("http://".data).isPrefixOf m || ("https://".data).isPrefixOf m then
        String.mk m
      else "https://" ++ String.mk m

/-! ## `_extract_plain_text_links` (lines 206-219) -/

/-- `PDFService._extract_plain_text_links`: find all pattern matches in the
text, right-strip slashes, validate each through `get_valid_url`, keep the
accepted ones and deduplicate (`list(set(links))`, modelled by `List.dedup`,
which has the same set of elements and is duplicate-free). -/
def extract_plain_text_links (text : String) : List String :=
  ((findAllMatches tlds_plain text.data).filterMap (fun m =>
    let v := get_valid_url (String.mk (rstripSlash m))
    if v = "" then none else some v)).dedup

/-! ## `_validate_resume_content` (lines 191-204) -/

/-- The fixed keyword list of `_validate_resume_content`. -/
def resume_keywords : List String :=
  ["experience", "education", "skills", "qualification",
   "projects", "certification", "work", "employment",
   "job", "profile", "accomplishment", "achievement",
   "responsibility", "university", "college", "degree"]

/-- `PDFService._validate_resume_content`: count the keywords occurring in
the lowercased text and require at least 4. -/
def validate_resume_content (text : String) : Bool :=
  decide (4 ≤ resume_keywords.countP (fun k => occursIn k.data (lowerL text.data)))

/-! ## PDF document abstraction

A page is modelled by what the PDF libraries report about it: the text
PyPDF2 extracts, the tables pdfplumber extracts (cells may be `None`), the
presence of raster images, the text pytesseract produces when the page is
rasterized, and the decoded URI strings of its `Link`-subtype annotation
objects. -/

structure PdfPage where
  text : String
  tables : List (List (List (Option String))) := []
  hasImages : Bool := false
  ocrText : String := ""
  annots : List String := []

abbrev PdfDoc := List PdfPage

/-- `has_tables` flag of the scan loop (lines 117-120). -/
def hasTables (doc : PdfDoc) : Bool := doc.any (fun p => !p.tables.isEmpty)

/-- `pages_with_images` of the scan loop (lines 121-122): the 0-based page
indices with images, in page order. -/
def pagesWithImages (doc : PdfDoc) : List Nat :=
  (List.range doc.length).filter
    (fun i => ((doc[i]?).map PdfPage.hasImages).getD false)

/-- Python built-in `min` over a non-empty list. -/
def listMin : List Nat → Option Nat
  | [] => none
  | h :: t => some (t.foldl Nat.min h)

/-- Python built-in `max` over a non-empty list. -/
def listMax : List Nat → Option Nat
  | [] => none
  | h :: t => some (t.foldl Nat.max h)

/-- Basic text pass (lines 127-131): `extracted_text += page.extract_text() + "\n"`. -/
def baseText (doc : PdfDoc) : String :=
  String.join (doc.map (fun p => p.text ++ "\n"))

/-- One table row (line 141): cells joined by `|`, `None` rendered as `""`. -/
def tableRowText (row : List (Option String)) : String :=
  String.intercalate "|" (row.map (fun c => c.getD ""))

/-- Table pass (lines 134-143), executed only when the scan found tables:
each row followed by a newline, a blank line after each table. -/
def tableText (doc : PdfDoc) : String :=
  if hasTables doc then
    String.join (doc.map (fun p =>
      String.join (p.tables.map (fun tb =>
        String.join (tb.map (fun row => tableRowText row ++ "\n")) ++ "\n"))))
  else ""

/-- OCR pass (lines 146-162), executed only when the scan found images:
`convert_from_path(first_page=min+1, last_page=max+1)` rasterizes the
contiguous 1-based page range from `min+1` to `max+1` inclusive, i.e. the
document slice from index `min` of length `max+1-min`; `executor.map`
returns the OCR results in submission order, and each is appended with a
trailing newline. -/
def ocrTextBlock (doc : PdfDoc) : String :=
  match pagesWithImages doc with
  | [] => ""
  | h :: t =>
    let mn := t.foldl Nat.min h
    let mx := t.foldl Nat.max h
    String.join (((doc.drop mn).take (mx + 1 - mn)).map (fun p => p.ocrText ++ "\n"))

/-- The full `extracted_text` buffer before cleaning: base text, then table
text, then OCR text. -/
def extractedRaw (doc : PdfDoc) : String :=
  baseText doc ++ tableText doc ++ ocrTextBlock doc

/-- Which library calls of `extract_text_from_pdf` raise, and with what
message: the pdfplumber scan, the PyPDF2 text pass, the pdfplumber table
pass, and the pdf2image/pytesseract OCR pass. -/
structure ExtractEnv where
  scanError : Option String := none
  readError : Option String := none
  tableError : Option String := none
  ocrError : Option String := none

/-- The dict returned by `extract_text_from_pdf`; a key absent from the
Python dict is `none`. -/
structure ExtractDict where
  status : Bool
  cleaned_text : Option String := none
  links : Option (List String) := none
  is_resume : Option Bool := none
  error : Option String := none

/-- The failure dict `{"status": False, "error": str(e)}` (lines 186-189). -/
def errExtract (e : String) : ExtractDict := { status := false, error := some e }

/-- `PDFService.extract_text_from_pdf` (lines 105-189).  Steps run in source
order; the table pass is reached only when tables were found, the OCR pass
only when images were found; the first exception aborts the pipeline and
produces the failure dict. -/
def extract_text_from_pdf (doc : PdfDoc) (env : ExtractEnv) : ExtractDict :=
  match env.scanError with
  | some e => errExtract e
  | none =>
    match env.readError with
    | some e => errExtract e
    | none =>
      match (if hasTables doc then env.tableError else none) with
      | some e => errExtract e
      | none =>
        match (if (pagesWithImages doc).isEmpty then none else env.ocrError) with
        | some e => errExtract e
        | none =>
          let cleaned := cleanText (extractedRaw doc)
          { status := true,
            cleaned_text := some cleaned,
            links := some (extract_plain_text_links cleaned),
            is_resume := some (validate_resume_content cleaned) }

/-- The message of the first exception `extract_text_from_pdf` runs into, if
any step that is actually reached raises. -/
def firstExtractError (doc : PdfDoc) (env : ExtractEnv) : Option String :=
  match env.scanError with
  | some e => some e
  | none =>
    match env.readError with
    | some e => some e
    | none =>
      match (if hasTables doc then env.tableError else none) with
      | some e => some e
      | none =>
        if (pagesWithImages doc).isEmpty then none else env.ocrError

/-! ## `extract_hyperlinks` (lines 52-103) -/

/-- `PDFService.extract_hyperlinks`: every URI string of a `Link`-subtype
annotation on any page is right-stripped of slashes and validated; accepted
URLs are collected and deduplicated (`list(set(links_list))`, modelled by
`List.dedup`). -/
def extract_hyperlinks (doc : PdfDoc) : List String :=
  (((doc.map PdfPage.annots).flatten).filterMap (fun u =>
    let v := get_valid_url (String.mk (rstripSlash u.data))
    if v = "" then none else some v)).dedup

/-! ## `process_pdf` (lines 221-267) and its temp-file lifetime

`tempfile.NamedTemporaryFile(delete=False)` creates the file on disk as soon
as it is opened; `tmp_path` is bound only AFTER the bytes were fetched and
written (line 237).  The `except` branch deletes the file only when
`'tmp_path' in locals()` (lines 262-263). -/

/-- Which steps of `process_pdf` raise: temp-file creation, the fetch/write
of the source bytes (`requests.get` / `raise_for_status` / `source.read` /
`tmp_file.write`), and the hyperlink extraction; extraction failures are
described by `extractEnv`. -/
structure ProcessEnv where
  createOk : Bool := true
  fetchError : Option String := none
  extractEnv : ExtractEnv := {}
  hyperError : Option String := none

/-- The dict returned by `process_pdf`; note the success dict (lines
254-258) carries only `status`, `cleaned_text` and `links` — no
`is_resume` key. -/
structure ProcessDict where
  status : Bool
  cleaned_text : Option String := none
  links : Option (List String) := none
  is_resume : Option Bool := none
  error : Option String := none

/-- Result of one `process_pdf` run together with the temp-file state at
return: whether the temporary file was created, and whether it still exists
on disk when the function returns. -/
structure ProcessOutcome where
  result : ProcessDict
  tempCreated : Bool
  tempExists : Bool

/-- `PDFService.process_pdf`.  On a fetch/write failure the temp file was
already created but `tmp_path` is not yet bound, so the `except` branch's
`if 'tmp_path' in locals()` guard is false and the file is NOT deleted; on
every later failure and on success `tmp_path` is bound and the file is
unlinked. -/
def process_pdf (doc : PdfDoc) (env : ProcessEnv) : ProcessOutcome :=
  if env.createOk = false then
    { result := { status := false, error := some "tempfile creation failed" },
      tempCreated := false, tempExists := false }
  else
    match env.fetchError with
    | some e =>
      { result := { status := false, error := some e },
        tempCreated := true, tempExists := true }
    | none =>
      let t := extract_text_from_pdf doc env.extractEnv
      if t.status = false then
        { result := { status := false, error := t.error },
          tempCreated := true, tempExists := false }
      else
        match env.hyperError with
        | some e =>
          { result := { status := false, error := some e },
            tempCreated := true, tempExists := false }
        | none =>
          { result := { status := true,
                        cleaned_text := t.cleaned_text,
                        links := some ((extract_hyperlinks doc ++ t.links.getD []).dedup) },
            tempCreated := true, tempExists := false }

/-! ## The `/resume/parse` route (`app/api/routes/resume.py`, lines 29-140) -/

/-- Route-level environment: the filename check and the two AI-service
calls (the embedding call is optional — its failure does not abort). -/
structure RouteEnv where
  filenameEndsPdf : Bool := true
  processEnv : ProcessEnv := {}
  embeddingOk : Bool := true
  extractionOk : Bool := true

/-- The responses `parse_resume` can produce: 400 for a non-PDF filename,
500 for processing/extraction failures, the 422 NOT_RESUME response, or the
completed response; `completed` carries the cleaned text that was forwarded
to the language-model extraction call, and the links. -/
inductive RouteResponse where
  | badRequest (detail : String)
  | serverError (detail : String)
  | notResume
  | completed (raw_text : String) (links : List String)
deriving DecidableEq

/-- The `parse_resume` request handler.  After a successful `process_pdf`
it consults `pdf_result.get("is_resume", False)` (line 72) and returns the
NOT_RESUME response when that is false; only otherwise does it forward
`pdf_result["cleaned_text"]` to `ai_service.extract_resume_info`. -/
def parse_resume (doc : PdfDoc) (env : RouteEnv) : RouteResponse :=
  if env.filenameEndsPdf = false then
    RouteResponse.badRequest "Only PDF files are supported"
  else
    let r := (process_pdf doc env.processEnv).result
    if r.status = false then
      RouteResponse.serverError ("PDF processing failed: " ++ r.error.getD "None")
    else if (r.is_resume.getD false) = false then
      RouteResponse.notResume
    else if env.extractionOk = false then
      RouteResponse.serverError "Information extraction failed"
    else
      RouteResponse.completed (r.cleaned_text.getD "") (r.links.getD [])

/-! ## Spec-side definition for the cleaner claim -/

/-- The whitelist the specification states for `cleanedText`, following the
spec's words: `[A-Za-z0-9 @+./:,_|-]` with `-` a literal character. -/
def spec_clean_whitelist (c : Char) : Bool :=
  ('a' ≤ c && c ≤ 'z') || ('A' ≤ c && c ≤ 'Z') || ('0' ≤ c && c ≤ '9') ||
  c = ' ' || c = '@' || c = '+' || c = '.' || c = '/' || c = ':' ||
  c = ',' || c = '_' || c = '|' || c = '-'

/-! ## Helper lemmas -/

/-- Folding `Nat.min` over elements all at least `a` returns `a`. -/
lemma foldl_min_of_le : ∀ (t : List Nat) (a : Nat), (∀ x ∈ t, a ≤ x) →
    t.foldl Nat.min a = a
  | [], _, _ => rfl
  | x :: t, a, h => by
    have hx : Nat.min a x = a := Nat.min_eq_left (h x (by simp))
    simp only [List.foldl_cons, hx]
    exact foldl_min_of_le t a (fun y hy => h y (by simp [hy]))

/-- For a strictly increasing `h :: t`, the last element is the fold of
`Nat.max`. -/
lemma getLast?_cons_foldl_max : ∀ (t : List Nat) (h : Nat),
    (h :: t).Pairwise (· < ·) → (h :: t).getLast? = some (t.foldl Nat.max h)
  | [], _, _ => rfl
  | x :: t, h, hp => by
    have hhx : h < x := (List.pairwise_cons.mp hp).1 x (by simp)
    have hp' : (x :: t).Pairwise (· < ·) := (List.pairwise_cons.mp hp).2
    have hmax : Nat.max h x = x := Nat.max_eq_right (Nat.le_of_lt hhx)
    calc (h :: x :: t).getLast? = (x :: t).getLast? := List.getLast?_cons_cons
      _ = some (t.foldl Nat.max x) := getLast?_cons_foldl_max t x hp'
      _ = some ((x :: t).foldl Nat.max h) := by simp only [List.foldl_cons, hmax]

/-- The image-page index list is strictly increasing. -/
lemma pagesWithImages_pairwise (doc : PdfDoc) :
    (pagesWithImages doc).Pairwise (· < ·) :=
  List.Pairwise.sublist (List.filter_sublist _) (List.pairwise_lt_range _)

/-- The document slice from `mn` of length `k` is the pointwise lookup of the
index range `[mn, mn+k)`. -/
lemma drop_take_eq_range' (doc : PdfDoc) : ∀ (k mn : Nat),
    (doc.drop mn).take k = (List.range' mn k).filterMap (fun i => doc[i]?)
  | 0, _ => by simp
  | k + 1, mn => by
    rw [List.range'_succ, List.filterMap_cons]
    by_cases hlt : mn < doc.length
    · rw [List.getElem?_eq_getElem hlt, List.drop_eq_getElem_cons hlt,
        List.take_succ_cons, drop_take_eq_range' doc k (mn + 1)]
    · have hle : doc.length ≤ mn := Nat.le_of_not_lt hlt
      rw [List.getElem?_eq_none hle, List.drop_eq_nil_of_le hle]
      have h2 := drop_take_eq_range' doc k (mn + 1)
      rw [List.drop_eq_nil_of_le (Nat.le_succ_of_le hle)] at h2
      simpa using h2

/-- Field values of a successful `extract_text_from_pdf` run. -/
lemma extract_ok_fields (doc : PdfDoc) (env : ExtractEnv)
    (h : (extract_text_from_pdf doc env).status = true) :
    (extract_text_from_pdf doc env).cleaned_text =
        some (cleanText (extractedRaw doc)) ∧
    (extract_text_from_pdf doc env).links =
        some (extract_plain_text_links (cleanText (extractedRaw doc))) ∧
    (extract_text_from_pdf doc env).is_resume =
        some (validate_resume_content (cleanText (extractedRaw doc))) := by
  cases h1 : env.scanError with
  | some e => simp [extract_text_from_pdf, h1, errExtract] at h
  | none =>
    cases h2 : env.readError with
    | some e => simp [extract_text_from_pdf, h1, h2, errExtract] at h
    | none =>
      cases h3 : (if hasTables doc then env.tableError else none) with
      | some e => simp [extract_text_from_pdf, h1, h2, h3, errExtract] at h
      | none =>
        cases hpe : pagesWithImages doc with
        | nil => simp [extract_text_from_pdf, h1, h2, h3, hpe]
        | cons a t =>
          cases h4 : env.ocrError with
          | some e => simp [extract_text_from_pdf, h1, h2, h3, hpe, h4, errExtract] at h
          | none => simp [extract_text_from_pdf, h1, h2, h3, hpe, h4]

/-! ## Concrete documents and environments used as inputs -/

/-- A one-page document whose text carries four resume keywords. -/
def resumeDoc : PdfDoc := [{ text := "experience education skills projects" }]

/-- A one-page resume-like document with two annotation links that validate
to the same URL as its one plain-text link. -/
def linkDoc : PdfDoc :=
  [{ text := "experience education skills projects visit x.com",
     annots := ["https://x.com/", "https://x.com"] }]

/-- A three-page document with images on the first and last page only. -/
def ocrDoc : PdfDoc :=
  [{ text := "a", hasImages := true, ocrText := "first" },
   { text := "b", ocrText := "middle" },
   { text := "c", hasImages := true, ocrText := "last" }]

/-- A run whose HTTP download of the source fails after the temporary file
was created. -/
def fetchFailEnv : ProcessEnv := { fetchError := some "404 Client Error" }

/-- A run whose pdfplumber scan raises. -/
def scanFailEnv : ExtractEnv := { scanError := some "bad pdf" }

/-! ## Claim theorems -/

/-- C1: the claim states that on every exit path of `process_pdf` the
temporary file no longer exists when the function returns, provided it was
created.  The code violates this: when fetching the source bytes fails (for
example `raise_for_status` on a failed download), the temporary file has
already been created by `NamedTemporaryFile(delete=False)` but `tmp_path`
is not yet bound, so the `if 'tmp_path' in locals()` guard of the `except`
branch skips the unlink and the file is leaked. -/
theorem C1_temp_file_leak_on_fetch_failure :
    (process_pdf [] fetchFailEnv).tempCreated = true ∧
    (process_pdf [] fetchFailEnv).tempExists = true ∧
    (process_pdf [] fetchFailEnv).result.status = false ∧
    (process_pdf [] fetchFailEnv).result.error = some "404 Client Error" :=
  ⟨rfl, rfl, rfl, rfl⟩

/-- C2: the claim states that `cleaned_text` contains no character outside
the whitelist `[A-Za-z0-9 @+./:,_|-]`.  The code violates this: in its
regex class the subexpression between the comma and the underscore is a
character range covering code points 0x2C-0x5F, so `;`, `<`, `=`, `>`, `?`,
`[`, `\`, `]` and `^` all survive cleaning, while a character such as `#`
is indeed replaced by a space. -/
theorem C2_cleaner_keeps_semicolon :
    cleanText "name; email" = "name; email" ∧
    spec_clean_whitelist ';' = false ∧
    cleanText "a#b" = "a b" :=
  ⟨rfl, rfl, rfl⟩

/-- C3: when at least one page carries an image, the OCR pass rasterizes
exactly the contiguous page span from the first image-bearing page (the
head of the image-index list, which equals its minimum) to the last (its
last element, which equals its maximum), and appends the per-page OCR text
of every page in that span — interior image-free pages included — in
original page order; an error-free extraction then cleans the buffer made
of base text, table text and that OCR block. -/
theorem C3_ocr_contiguous_span (doc : PdfDoc) (mn mx : Nat)
    (hmn : listMin (pagesWithImages doc) = some mn)
    (hmx : listMax (pagesWithImages doc) = some mx) :
    (pagesWithImages doc).head? = some mn ∧
    (pagesWithImages doc).getLast? = some mx ∧
    ocrTextBlock doc =
      String.join (((List.range' mn (mx + 1 - mn)).filterMap (fun i => doc[i]?)).map
        (fun p => p.ocrText ++ "\n")) ∧
    (extract_text_from_pdf doc {}).cleaned_text = some (cleanText (extractedRaw doc)) := by
  cases hp : pagesWithImages doc with
  | nil => rw [hp] at hmn; simp [listMin] at hmn
  | cons h t =>
    have hpw : (h :: t).Pairwise (· < ·) := hp ▸ pagesWithImages_pairwise doc
    have hmn' : t.foldl Nat.min h = mn := by
      rw [hp] at hmn; simpa [listMin] using hmn
    have hminh : t.foldl Nat.min h = h := by
      apply foldl_min_of_le
      intro x hx
      exact Nat.le_of_lt ((List.pairwise_cons.mp hpw).1 x hx)
    have hmx' : t.foldl Nat.max h = mx := by
      rw [hp] at hmx; simpa [listMax] using hmx
    refine ⟨?_, ?_, ?_, ?_⟩
    · rw [List.head?_cons, ← hmn', hminh]
    · rw [getLast?_cons_foldl_max t h hpw, hmx']
    · simp only [ocrTextBlock, hp]
      rw [hmn', hmx', drop_take_eq_range']
    · have hst : (extract_text_from_pdf doc ({} : ExtractEnv)).status = true := by
        simp [extract_text_from_pdf]
      exact (extract_ok_fields doc {} hst).1

/-- C3 witness: the theorem applied to a concrete three-page document with
images on pages 0 and 2 only. -/
theorem C3_ocr_contiguous_span_witness :
    (pagesWithImages ocrDoc).head? = some 0 ∧
    (pagesWithImages ocrDoc).getLast? = some 2 ∧
    ocrTextBlock ocrDoc =
      String.join (((List.range' 0 (2 + 1 - 0)).filterMap (fun i => ocrDoc[i]?)).map
        (fun p => p.ocrText ++ "\n")) ∧
    (extract_text_from_pdf ocrDoc {}).cleaned_text = some (cleanText (extractedRaw ocrDoc)) :=
  C3_ocr_contiguous_span ocrDoc 0 2 (by decide) (by decide)

/-- C4: the claim states that when extraction succeeds and the classifier
marks the text resume-like, `parse_resume` forwards the cleaned text to the
model-extraction call and returns the not-a-resume response only when the
classifier flag is false.  The code violates this: `process_pdf`'s success
dict drops the `is_resume` key computed by `extract_text_from_pdf`, so
`pdf_result.get("is_resume", False)` in the route is always `False` and the
route answers NOT_RESUME even for a document the classifier accepted. -/
theorem C4_route_always_not_resume :
    (extract_text_from_pdf resumeDoc {}).is_resume = some true ∧
    (process_pdf resumeDoc {}).result.status = true ∧
    (process_pdf resumeDoc {}).result.is_resume = none ∧
    parse_resume resumeDoc {} = RouteResponse.notResume :=
  ⟨rfl, rfl, rfl, rfl⟩

/-- C5: the classifier returns true exactly when at least 4 distinct
keywords of the fixed 16-keyword list occur (case-insensitively, as
substrings) in the text; the keyword list is duplicate-free, and presence
is boolean, so repeated occurrences of one keyword count once. -/
theorem C5_classifier_keyword_threshold (t : String) :
    resume_keywords.Nodup ∧
    (validate_resume_content t = true ↔
      4 ≤ (resume_keywords.filter (fun k => occursIn k.data (lowerL t.data))).length) := by
  refine ⟨by decide, ?_⟩
  simp [validate_resume_content, List.countP_eq_length_filter]

/-- C6: `extract_hyperlinks` and `extract_plain_text_links` both return
duplicate-free lists, and every successful `process_pdf` run returns as
`links` the deduplicated union of the annotation links and the plain-text
links extracted from the cleaned text. -/
theorem C6_links_deduplicated (doc : PdfDoc) (t : String) (env : ProcessEnv)
    (hs : (process_pdf doc env).result.status = true) :
    (extract_hyperlinks doc).Nodup ∧
    (extract_plain_text_links t).Nodup ∧
    (process_pdf doc env).result.links =
      some ((extract_hyperlinks doc ++
        extract_plain_text_links (cleanText (extractedRaw doc))).dedup) ∧
    ((extract_hyperlinks doc ++
        extract_plain_text_links (cleanText (extractedRaw doc))).dedup).Nodup := by
  refine ⟨List.nodup_dedup _, List.nodup_dedup _, ?_, List.nodup_dedup _⟩
  cases hc : env.createOk with
  | false => simp [process_pdf, hc] at hs
  | true =>
    cases hf : env.fetchError with
    | some e => simp [process_pdf, hc, hf] at hs
    | none =>
      cases hts : (extract_text_from_pdf doc env.extractEnv).status with
      | false => simp [process_pdf, hc, hf, hts] at hs
      | true =>
        cases hh : env.hyperError with
        | some e => simp [process_pdf, hc, hf, hts, hh] at hs
        | none =>
          have hfields := extract_ok_fields doc env.extractEnv hts
          simp [process_pdf, hc, hf, hts, hh, hfields.2.1]

/-- C6 witness: the theorem applied to a concrete successful run whose
two identical annotation links collapse to one entry. -/
theorem C6_links_deduplicated_witness :
    (extract_hyperlinks linkDoc).Nodup ∧
    (extract_plain_text_links "a.com a.com").Nodup ∧
    (process_pdf linkDoc {}).result.links =
      some ((extract_hyperlinks linkDoc ++
        extract_plain_text_links (cleanText (extractedRaw linkDoc))).dedup) ∧
    ((extract_hyperlinks linkDoc ++
        extract_plain_text_links (cleanText (extractedRaw linkDoc))).dedup).Nodup :=
  C6_links_deduplicated linkDoc "a.com a.com" {} (by decide)

/-- C7: any input containing `mailto:`, `tel:`, `wikipedia.org` or
`gmail.com` case-insensitively (that is, as a substring of the lowercased
input) is rejected by `_get_valid_url` with the empty string. -/
theorem C7_blocklist_rejects (s : String)
    (h : occursIn "mailto:".data (lowerL s.data) = true ∨
         occursIn "tel:".data (lowerL s.data) = true ∨
         occursIn "wikipedia.org".data (lowerL s.data) = true ∨
         occursIn "gmail.com".data (lowerL s.data) = true) :
    get_valid_url s = "" := by
  have hb : blocked_substrings.any (fun b => occursIn b.data (lowerL s.data)) = true := by
    simp only [blocked_substrings, List.any_cons, List.any_nil, Bool.or_eq_true]
    rcases h with h | h | h | h <;> simp [h]
  simp [get_valid_url, hb]

/-- C7 witness: a mixed-case `MAILTO:` input is rejected. -/
theorem C7_blocklist_rejects_witness :
    get_valid_url "See MAILTO:someone for details" = "" :=
  C7_blocklist_rejects _ (Or.inl (by decide))

/-- C8: on a non-blocklisted input, `_get_valid_url` returns the first
pattern match, prefixed with `https://` exactly when the match does not
already start with `http://` or `https://`; with no pattern match it
returns the empty string. -/
theorem C8_validator_first_match (s : String) (m : List Char)
    (hb : blocked_substrings.any (fun b => occursIn b.data (lowerL s.data)) = false) :
    (findAllMatches tlds_full s.data = [] → get_valid_url s = "") ∧
    ((findAllMatches tlds_full s.data).head? = some m →
      get_valid_url s =
        if ("http://".data).isPrefixOf m || ("https://".data).isPrefixOf m
        then String.mk m else "https://" ++ String.mk m) := by
  constructor
  · intro he
    simp [get_valid_url, hb, he]
  · intro hm
    cases hfa : findAllMatches tlds_full s.data with
    | nil => rw [hfa] at hm; simp at hm
    | cons a rest =>
      rw [hfa] at hm
      simp only [List.head?_cons, Option.some.injEq] at hm
      subst hm
      simp [get_valid_url, hb, hfa]

/-- C8 witness: a schemeless first match gets the `https://` prefix. -/
theorem C8_validator_first_match_witness :
    get_valid_url "visit www.example.com/path now" = "https://www.example.com/path" :=
  ((C8_validator_first_match "visit www.example.com/path now"
      ("www.example.com/path".data) (by decide)).2 (by decide)).trans (by decide)

/-- C9: whenever any reached step of `extract_text_from_pdf` raises, the
function returns the failure dict: status false, the exception message as
error, and no `cleaned_text`, `links` or `is_resume` keys — no partial
text is surfaced. -/
theorem C9_extraction_failure_no_partial (doc : PdfDoc) (env : ExtractEnv) (msg : String)
    (h : firstExtractError doc env = some msg) :
    (extract_text_from_pdf doc env).status = false ∧
    (extract_text_from_pdf doc env).error = some msg ∧
    (extract_text_from_pdf doc env).cleaned_text = none ∧
    (extract_text_from_pdf doc env).links = none ∧
    (extract_text_from_pdf doc env).is_resume = none := by
  cases h1 : env.scanError with
  | some e =>
    have he : e = msg := by simpa [firstExtractError, h1] using h
    subst he
    simp [extract_text_from_pdf, h1, errExtract]
  | none =>
    cases h2 : env.readError with
    | some e =>
      have he : e = msg := by simpa [firstExtractError, h1, h2] using h
      subst he
      simp [extract_text_from_pdf, h1, h2, errExtract]
    | none =>
      cases h3 : (if hasTables doc then env.tableError else none) with
      | some e =>
        have he : e = msg := by simpa [firstExtractError, h1, h2, h3] using h
        subst he
        simp [extract_text_from_pdf, h1, h2, h3, errExtract]
      | none =>
        cases hpe : pagesWithImages doc with
        | nil => simp [firstExtractError, h1, h2, h3, hpe] at h
        | cons a t =>
          cases h4 : env.ocrError with
          | some e =>
            have he : e = msg := by simpa [firstExtractError, h1, h2, h3, hpe, h4] using h
            subst he
            simp [extract_text_from_pdf, h1, h2, h3, hpe, h4, errExtract]
          | none => simp [firstExtractError, h1, h2, h3, hpe, h4] at h

/-- C9 witness: a failing pdfplumber scan yields the bare failure dict. -/
theorem C9_extraction_failure_no_partial_witness :
    (extract_text_from_pdf [] scanFailEnv).status = false ∧
    (extract_text_from_pdf [] scanFailEnv).error = some "bad pdf" ∧
    (extract_text_from_pdf [] scanFailEnv).cleaned_text = none ∧
    (extract_text_from_pdf [] scanFailEnv).links = none ∧
    (extract_text_from_pdf [] scanFailEnv).is_resume = none :=
  C9_extraction_failure_no_partial [] scanFailEnv "bad pdf" (by decide)

/-- C10: a cleaned text whose only URL has the `.ai` top-level domain yields
no plain-text link, because the pre-filter pattern of
`_extract_plain_text_links` omits the `ai` TLD, even though
`_get_valid_url` itself accepts the same `.ai` URL. -/
theorem C10_plain_text_ai_tld_gap :
    extract_plain_text_links "see myproject.ai" = [] ∧
    get_valid_url "myproject.ai" = "https://myproject.ai" :=
  ⟨rfl, rfl⟩

end ResumeParser
